import Mathlib

/-!
Shallow embedding of the club-meetings application (`src/app.py`, `src/models.py`).

The application is a small Flask service over a SQLite store.  We embed:

* calendar dates, wall-clock times and their chronological (lexicographic)
  comparison, as used by Python `datetime` objects;
* the input-parsing helpers `parse_date`, `parse_time`, `reject_if_past`
  and the `int(...)`-based field parsing used by the handlers;
* the meeting store (id-indexed rows of the `meetings` table from
  `models.py`) with insert/replace/delete and the `NOT NULL` constraints
  that the schema declares on `date` and `start_time`;
* each request handler (`meetings_list`, `meetings_create`,
  `meetings_update`, `meetings_delete`, `report`) as a function from the
  request's parameters and the store to an `Except PyErr` result, where an
  `Except.error` models an unhandled Python exception propagating as a
  server error (HTTP 500) with the database left unchanged;
* the report aggregates in exact rational arithmetic (Python performs the
  same computation in binary floating point; the claims under study do not
  depend on float representation error), including Python's banker's
  rounding `round(x, n)`.

Modelling conventions, stated once here:

* Python's `str.strip`-style whitespace handling and `int(str)` are
  modelled for ASCII input (optional surrounding whitespace, optional
  sign, decimal digits); digit-grouping underscores and non-ASCII digits
  are not modelled.
* `datetime.strptime(s, fmt)` is modelled after CPython's `_strptime`
  regexes: `%Y` is exactly four digits, `%m`/`%d`/`%H`/`%M`/`%S` are one
  or two digits, and the resulting field values are validated exactly as
  the `date`/`datetime` constructors do (month 1..12, day 1..days-in-month
  with leap years, hour 0..23, minute/second 0..59, year at least 1).
* Flask's `request.form.get(k)` / `request.args.get(k)` yield
  `Option String` (absent key ↦ `none`); `request.args.get(k, type=int)`
  returns `none` when the conversion raises, per Flask's documented
  behaviour.
* SQL `ORDER BY` is modelled by `List.mergeSort` on the same keys; SQL
  comparisons against a `NULL` column value are false (the row is filtered
  out), and `NULL` sorts before every value, as in SQLite.
* Rendered HTML is elided: handlers return the data a template would
  receive (rows, stats, filter echo) or a `Response` value for
  redirect/404 outcomes.
-/

namespace ClubApp

/-- A calendar date, as produced by Python's `datetime.date`. -/
structure Date where
  year : Nat
  month : Nat
  day : Nat
deriving DecidableEq, Repr

/-- A wall-clock time, as produced by Python's `datetime.time`. -/
structure Time where
  hour : Nat
  minute : Nat
  second : Nat
deriving DecidableEq, Repr

/-- A combined date and time, as produced by `datetime.combine` /
`datetime.now()`. -/
structure DateTime where
  date : Date
  time : Time
deriving DecidableEq, Repr

/-- Chronological strict order on dates: lexicographic on
(year, month, day), exactly how Python compares `date` objects. -/
def Date.ltb (a b : Date) : Bool :=
  decide (a.year < b.year) ||
    (decide (a.year = b.year) &&
      (decide (a.month < b.month) ||
        (decide (a.month = b.month) && decide (a.day < b.day))))

/-- `a ≤ b` on dates, via totality of the strict order. -/
def Date.leb (a b : Date) : Bool := !(Date.ltb b a)

/-- Equality of dates, component-wise (the same relation as `=` on the
record). -/
def Date.eqb (a b : Date) : Bool :=
  decide (a.year = b.year) && decide (a.month = b.month) && decide (a.day = b.day)

/-- Chronological strict order on times: lexicographic on
(hour, minute, second). -/
def Time.ltb (a b : Time) : Bool :=
  decide (a.hour < b.hour) ||
    (decide (a.hour = b.hour) &&
      (decide (a.minute < b.minute) ||
        (decide (a.minute = b.minute) && decide (a.second < b.second))))

/-- Chronological strict order on datetimes: lexicographic on
(date, time), exactly how Python compares `datetime` objects. -/
def DateTime.ltb (a b : DateTime) : Bool :=
  Date.ltb a.date b.date || (Date.eqb a.date b.date && Time.ltb a.time b.time)

/-- Decimal value of a digit string (most significant first). -/
def digitsVal (cs : List Char) : Nat :=
  cs.foldl (fun n c => n * 10 + (c.toNat - 48)) 0

/-- All characters are ASCII decimal digits. -/
def allDigits (cs : List Char) : Bool := cs.all Char.isDigit

/-- Split a character list on a separator (like `str.split(sep)` for the
fixed one-character separators used by the date/time formats). -/
def splitOn (sep : Char) (cs : List Char) : List (List Char) :=
  cs.foldr
    (fun c acc =>
      if c = sep then [] :: acc
      else
        match acc with
        | g :: gs => (c :: g) :: gs
        | [] => [[c]])
    [[]]

/-- Gregorian leap-year rule, as in Python's `calendar.isleap`. -/
def isLeap (y : Nat) : Bool :=
  (decide (y % 4 = 0) && decide (y % 100 ≠ 0)) || decide (y % 400 = 0)

/-- Number of days in a month, as enforced by the `datetime.date`
constructor. -/
def daysInMonth (y m : Nat) : Nat :=
  if m = 2 then (if isLeap y then 29 else 28)
  else if m = 4 ∨ m = 6 ∨ m = 9 ∨ m = 11 then 30
  else 31

/-- `datetime.strptime(s, "%Y-%m-%d").date()` on a non-empty string:
four-digit year, one-or-two-digit month and day, field ranges validated
by the `date` constructor.  `none` models the `ValueError` raised on any
mismatch. -/
def parseDateStr (s : String) : Option Date :=
  match splitOn '-' s.data with
  | [ys, ms, ds] =>
    if decide (ys.length = 4) && allDigits ys &&
        decide (1 ≤ ms.length) && decide (ms.length ≤ 2) && allDigits ms &&
        decide (1 ≤ ds.length) && decide (ds.length ≤ 2) && allDigits ds then
      let y := digitsVal ys
      let m := digitsVal ms
      let d := digitsVal ds
      if decide (1 ≤ y) && decide (1 ≤ m) && decide (m ≤ 12) &&
          decide (1 ≤ d) && decide (d ≤ daysInMonth y m) then
        some ⟨y, m, d⟩
      else none
    else none
  | _ => none

/-- `datetime.strptime(s, "%H:%M").time()` on a non-empty string. -/
def parseTimeHM (s : String) : Option Time :=
  match splitOn ':' s.data with
  | [hs, ms] =>
    if decide (1 ≤ hs.length) && decide (hs.length ≤ 2) && allDigits hs &&
        decide (1 ≤ ms.length) && decide (ms.length ≤ 2) && allDigits ms then
      let h := digitsVal hs
      let mi := digitsVal ms
      if decide (h ≤ 23) && decide (mi ≤ 59) then some ⟨h, mi, 0⟩ else none
    else none
  | _ => none

/-- `datetime.strptime(s, "%H:%M:%S").time()` on a non-empty string. -/
def parseTimeHMS (s : String) : Option Time :=
  match splitOn ':' s.data with
  | [hs, ms, ss] =>
    if decide (1 ≤ hs.length) && decide (hs.length ≤ 2) && allDigits hs &&
        decide (1 ≤ ms.length) && decide (ms.length ≤ 2) && allDigits ms &&
        decide (1 ≤ ss.length) && decide (ss.length ≤ 2) && allDigits ss then
      let h := digitsVal hs
      let mi := digitsVal ms
      let sec := digitsVal ss
      if decide (h ≤ 23) && decide (mi ≤ 59) && decide (sec ≤ 59) then
        some ⟨h, mi, sec⟩
      else none
    else none
  | _ => none

/-- Unhandled Python exceptions that terminate a request as a server
error: `ValueError` from `int()`/`strptime`, `TypeError` from
`int(None)`, `IntegrityError` from committing a row violating the
schema's `NOT NULL` constraints. -/
inductive PyErr where
  | valueError
  | typeError
  | integrityError
deriving DecidableEq, Repr

/-- `parse_date` from `app.py`: `datetime.strptime(s, "%Y-%m-%d").date()
if s else None`, applied to an optional form/query value.  An absent or
empty value is falsy and yields `None`; a malformed non-empty string
raises `ValueError`. -/
def parse_date (v : Option String) : Except PyErr (Option Date) :=
  match v with
  | none => .ok none
  | some s =>
    if s = "" then .ok none
    else
      match parseDateStr s with
      | some d => .ok (some d)
      | none => .error .valueError

/-- `parse_time` from `app.py`: returns `None` on a falsy input, tries
`%H:%M` then `%H:%M:%S`, and falls back to `None` (never an error) when
neither format matches. -/
def parse_time (v : Option String) : Option Time :=
  match v with
  | none => none
  | some s =>
    if s = "" then none
    else
      match parseTimeHM s with
      | some t => some t
      | none => parseTimeHMS s

/-- `reject_if_past` from `app.py`: `False` when either component is
falsy (absent), otherwise `datetime.combine(d, t) < datetime.now()`,
with the current local time passed in explicitly as `now`. -/
def reject_if_past (now : DateTime) (d : Option Date) (t : Option Time) : Bool :=
  match d, t with
  | some dd, some tt => DateTime.ltb ⟨dd, tt⟩ now
  | _, _ => false

/-- Python's `int(s)` on a string: optional surrounding whitespace,
optional sign, one or more decimal digits; `none` models `ValueError`. -/
def pythonInt (s : String) : Option Int :=
  let cs := s.data.dropWhile Char.isWhitespace
  let cs := (cs.reverse.dropWhile Char.isWhitespace).reverse
  match cs with
  | '+' :: ds => if !ds.isEmpty && allDigits ds then some (digitsVal ds : Int) else none
  | '-' :: ds => if !ds.isEmpty && allDigits ds then some (-(digitsVal ds : Int)) else none
  | ds => if !ds.isEmpty && allDigits ds then some (digitsVal ds : Int) else none

/-- `int(request.form.get(k) or 0)`: an absent or empty field is falsy
and defaults to `0`; otherwise `int(s)`, whose failure is an unhandled
`ValueError`. -/
def intOr0 (v : Option String) : Except PyErr Int :=
  match v with
  | none => .ok 0
  | some s =>
    if s = "" then .ok 0
    else
      match pythonInt s with
      | some n => .ok n
      | none => .error .valueError

/-- `int(request.form.get(k))` with no default: `int(None)` raises
`TypeError`; a non-numeric string raises `ValueError`. -/
def intReq (v : Option String) : Except PyErr Int :=
  match v with
  | none => .error .typeError
  | some s =>
    match pythonInt s with
    | some n => .ok n
    | none => .error .valueError

/-- Flask's `request.args.get(k, type=int)`: absent key or failed
conversion yields `None` (Flask swallows the `ValueError`). -/
def argsGetInt (v : Option String) : Option Int :=
  v.bind pythonInt

/-- Python truthiness of an `Optional[int]`: `None` and `0` are falsy. -/
def truthyInt : Option Int → Bool
  | none => false
  | some n => decide (n ≠ 0)

/-- A row of the `meetings` table (`models.py`).  `date` and
`start_time` are `Option`s because the handlers construct rows from
possibly-absent parsed values; the schema's `NOT NULL` on those columns
is enforced at commit (`Meeting.notNullOk`).  The surrogate primary key
is carried alongside the row in the store. -/
structure Meeting where
  date : Option Date
  start_time : Option Time
  duration_minutes : Int
  description : Option String
  club_id : Int
  room_id : Int
  invited_count : Int
  accepted_count : Int
deriving DecidableEq, Repr

/-- The schema constraints checked by the store at commit time:
`models.py` declares `date` and `start_time` `nullable=False` (the other
non-nullable columns are non-optional in this embedding by
construction). -/
def Meeting.notNullOk (m : Meeting) : Bool :=
  m.date.isSome && m.start_time.isSome

/-- The `meetings` table: id-indexed rows plus the next auto-increment
primary key. -/
structure Store where
  meetings : List (Nat × Meeting)
  nextId : Nat
deriving DecidableEq, Repr

/-- `Meeting.query.get(i)`: the row with primary key `i`, if any. -/
def Store.lookup (s : Store) (i : Nat) : Option Meeting :=
  (s.meetings.find? (fun p => p.1 == i)).map (fun p => p.2)

/-- In-place update of the row with primary key `i`. -/
def Store.replaceRow (s : Store) (i : Nat) (m : Meeting) : Store :=
  { s with meetings := s.meetings.map (fun p => if p.1 == i then (i, m) else p) }

/-- Deletion of the row with primary key `i`. -/
def Store.removeRow (s : Store) (i : Nat) : Store :=
  { s with meetings := s.meetings.filter (fun p => p.1 != i) }

/-- `db.session.add(m); db.session.commit()`: the store assigns the next
primary key and enforces the schema's `NOT NULL` constraints, raising
`IntegrityError` (leaving the database unchanged) on violation. -/
def commitInsert (s : Store) (m : Meeting) : Except PyErr Store :=
  if m.notNullOk then
    .ok ⟨s.meetings ++ [(s.nextId, m)], s.nextId + 1⟩
  else .error .integrityError

/-- `db.session.commit()` after mutating the row with id `i` in place,
with the same `NOT NULL` enforcement. -/
def commitReplace (s : Store) (i : Nat) (m : Meeting) : Except PyErr Store :=
  if m.notNullOk then .ok (s.replaceRow i m)
  else .error .integrityError

/-- The form fields read by the create/update handlers
(`request.form.get(...)`; an absent field is `none`). -/
structure Form where
  date : Option String
  start_time : Option String
  duration_minutes : Option String
  description : Option String
  club_id : Option String
  room_id : Option String
  invited_count : Option String
  accepted_count : Option String
deriving DecidableEq, Repr

/-- The non-rendered handler outcomes: a redirect (target endpoint plus
flashed messages) or the `abort(404)` raised by `get_or_404`. -/
inductive Response where
  | redirect (target : String) (flash : List String)
  | notFound
deriving DecidableEq, Repr

/-- Ascending `ORDER BY (date, start_time)` as a boolean total preorder
on rows: lexicographic, with SQLite's `NULL`-first placement. -/
def optDateLt : Option Date → Option Date → Bool
  | none, none => false
  | none, some _ => true
  | some _, none => false
  | some a, some b => Date.ltb a b

/-- Strict `NULL`-first order on optional times (see `optDateLt`). -/
def optTimeLt : Option Time → Option Time → Bool
  | none, none => false
  | none, some _ => true
  | some _, none => false
  | some a, some b => Time.ltb a b

/-- Equality of optional dates, component-wise (the same relation as `=`
on `Option Date`). -/
def optDateEqb : Option Date → Option Date → Bool
  | none, none => true
  | some a, some b => Date.eqb a b
  | _, _ => false

/-- Row `a` may precede row `b` under ascending
`ORDER BY (date, start_time)`. -/
def rowKeyLe (a b : Nat × Meeting) : Bool :=
  optDateLt a.2.date b.2.date ||
    (optDateEqb a.2.date b.2.date && !(optTimeLt b.2.start_time a.2.start_time))

/-- The list view's query
(`Meeting.query.order_by(date.desc(), start_time.desc()).all()`), i.e.
the rows handed to the list template. -/
def meetings_list (s : Store) : List (Nat × Meeting) :=
  s.meetings.mergeSort (fun a b => rowKeyLe b a)

/-- SQL `Meeting.date >= bound` (false when the column is `NULL`). -/
def dateGe (d : Option Date) (bound : Date) : Bool :=
  match d with
  | some dd => Date.leb bound dd
  | none => false

/-- SQL `Meeting.date <= bound` (false when the column is `NULL`). -/
def dateLe (d : Option Date) (bound : Date) : Bool :=
  match d with
  | some dd => Date.leb dd bound
  | none => false

/-- `meetings_create` from `app.py`: parse date/time, soft-reject a past
date with a flash-and-redirect to the new-meeting form, otherwise clamp
the counts, build the row (field parses in source evaluation order) and
commit it.  Any `Except.error` is an unhandled exception: the request
dies with a server error and the database is unchanged. -/
def meetings_create (now : DateTime) (form : Form) (s : Store) :
    Except PyErr (Store × Response) :=
  match parse_date form.date with
  | .error e => .error e
  | .ok d =>
    let t := parse_time form.start_time
    if reject_if_past now d t then
      .ok (s, .redirect "meetings_new" ["Cannot schedule a meeting in the past!"])
    else
      match intOr0 form.invited_count with
      | .error e => .error e
      | .ok inv0 =>
        match intOr0 form.accepted_count with
        | .error e => .error e
        | .ok acc0 =>
          match intOr0 form.duration_minutes with
          | .error e => .error e
          | .ok duration =>
            match intReq form.club_id with
            | .error e => .error e
            | .ok club =>
              match intReq form.room_id with
              | .error e => .error e
              | .ok room =>
                match commitInsert s
                    ⟨d, t, duration, form.description, club, room,
                      max 0 inv0, max 0 acc0⟩ with
                | .error e => .error e
                | .ok s' =>
                  .ok (s', .redirect "meetings_list" ["Meeting created!"])

/-- `meetings_update` from `app.py`: `get_or_404`, then the same
past-date soft rejection (redirecting to the edit form), then overwrite
every mutable field of the row and commit. -/
def meetings_update (now : DateTime) (i : Nat) (form : Form) (s : Store) :
    Except PyErr (Store × Response) :=
  match s.lookup i with
  | none => .ok (s, .notFound)
  | some _ =>
    match parse_date form.date with
    | .error e => .error e
    | .ok d =>
      let t := parse_time form.start_time
      if reject_if_past now d t then
        .ok (s, .redirect "meetings_edit" ["Cannot schedule a meeting in the past!"])
      else
        match intOr0 form.duration_minutes with
        | .error e => .error e
        | .ok duration =>
          match intReq form.club_id with
          | .error e => .error e
          | .ok club =>
            match intReq form.room_id with
            | .error e => .error e
            | .ok room =>
              match intOr0 form.invited_count with
              | .error e => .error e
              | .ok inv0 =>
                match intOr0 form.accepted_count with
                | .error e => .error e
                | .ok acc0 =>
                  match commitReplace s i
                      ⟨d, t, duration, form.description, club, room,
                        max 0 inv0, max 0 acc0⟩ with
                  | .error e => .error e
                  | .ok s' =>
                    .ok (s', .redirect "meetings_list" ["Meeting updated!"])

/-- `meetings_delete` from `app.py`: `get_or_404`, delete, commit,
flash, redirect to the list. -/
def meetings_delete (i : Nat) (s : Store) : Store × Response :=
  match s.lookup i with
  | none => (s, .notFound)
  | some _ => (s.removeRow i, .redirect "meetings_list" ["Meeting deleted!"])

/-- `meetings_edit` from `app.py`, reduced to its outcome: `get_or_404`
then render the pre-filled form. -/
def meetings_edit (i : Nat) (s : Store) : Response :=
  match s.lookup i with
  | none => .notFound
  | some _ => .redirect "meeting_form" []

/-- The query parameters of `GET /report` (raw strings). -/
structure ReportArgs where
  club_id : Option String
  room_id : Option String
  date_from : Option String
  date_to : Option String
deriving DecidableEq, Repr

/-- Python's banker's rounding `round(q, nd)` on an exact rational:
round half to even at `nd` decimal places. -/
def pyRound (q : ℚ) (nd : Nat) : ℚ :=
  let scaled : ℚ := q * ((10 : ℚ) ^ nd)
  let f : Int := ⌊scaled⌋
  let r : ℚ := scaled - (f : ℚ)
  let i : Int :=
    if r < 1 / 2 then f
    else if 1 / 2 < r then f + 1
    else if f % 2 = 0 then f else f + 1
  (i : ℚ) / ((10 : ℚ) ^ nd)

/-- The four aggregates of the report, before display rounding. -/
structure Stats where
  avg_duration : ℚ
  avg_invited : ℚ
  avg_accepted : ℚ
  avg_attendance_rate : ℚ
deriving DecidableEq, Repr

/-- The aggregate block of `report` (`app.py` lines 185-190): each
average guards on a truthy (non-zero) denominator, and the attendance
rate averages `accepted/invited` over the rows with truthy (non-zero)
`invited_count` only.  Display rounding (`round(x, 2)` / `round(x, 3)`)
is applied as in the `stats` dict. -/
def reportStats (rows : List (Nat × Meeting)) : Stats :=
  let n := rows.length
  let avg_duration : ℚ :=
    if n ≠ 0 then ((rows.map (fun p => (p.2.duration_minutes : ℚ))).sum) / n else 0
  let avg_invited : ℚ :=
    if n ≠ 0 then ((rows.map (fun p => (p.2.invited_count : ℚ))).sum) / n else 0
  let avg_accepted : ℚ :=
    if n ≠ 0 then ((rows.map (fun p => (p.2.accepted_count : ℚ))).sum) / n else 0
  let rates : List ℚ :=
    (rows.filter (fun p => decide (p.2.invited_count ≠ 0))).map
      (fun p => (p.2.accepted_count : ℚ) / (p.2.invited_count : ℚ))
  let avg_attendance_rate : ℚ :=
    if rates.length ≠ 0 then rates.sum / rates.length else 0
  ⟨pyRound avg_duration 2, pyRound avg_invited 2, pyRound avg_accepted 2,
    pyRound avg_attendance_rate 3⟩

/-- The filter-and-sort block of `report` (`app.py` lines 173-183): each
filter is applied only when its parsed value is truthy (non-`None`,
non-zero for the ids), then ascending `ORDER BY (date, start_time)`. -/
def reportRows (club_id room_id : Option Int)
    (date_from date_to : Option Date)
    (ms : List (Nat × Meeting)) : List (Nat × Meeting) :=
  let q := ms
  let q := if truthyInt club_id then
      q.filter (fun p => some p.2.club_id == club_id) else q
  let q := if truthyInt room_id then
      q.filter (fun p => some p.2.room_id == room_id) else q
  let q : List (Nat × Meeting) := match date_from with
    | some df => q.filter (fun p => dateGe p.2.date df)
    | none => q
  let q : List (Nat × Meeting) := match date_to with
    | some dt => q.filter (fun p => dateLe p.2.date dt)
    | none => q
  q.mergeSort rowKeyLe

/-- What the report template receives: the matching rows, the filter
echo, and the rounded stats. -/
structure ReportResult where
  rows : List (Nat × Meeting)
  filt_club_id : Option Int
  filt_room_id : Option Int
  filt_date_from : Option String
  filt_date_to : Option String
  stats : Stats
deriving DecidableEq, Repr

/-- `report` from `app.py`: parse the four optional query parameters
(`type=int` conversions never raise; a truthy malformed date string
raises `ValueError`), filter and sort, compute the aggregates. -/
def report (args : ReportArgs) (s : Store) : Except PyErr ReportResult :=
  let club_id := argsGetInt args.club_id
  let room_id := argsGetInt args.room_id
  match parse_date args.date_from with
  | .error e => .error e
  | .ok date_from =>
    match parse_date args.date_to with
    | .error e => .error e
    | .ok date_to =>
      let rows := reportRows club_id room_id date_from date_to s.meetings
      .ok ⟨rows, club_id, room_id, args.date_from, args.date_to, reportStats rows⟩

/-- Modelled from the spec's words, for comparison against the code's
aggregate in C1: the mean of `accepted_count/invited_count` taken only
over the rows with `invited_count > 0`, and 0 when no row has
`invited_count > 0`. -/
def specAttendanceMean (rows : List (Nat × Meeting)) : ℚ :=
  let elig := rows.filter (fun p => decide (0 < p.2.invited_count))
  if elig.length ≠ 0 then
    ((elig.map (fun p => (p.2.accepted_count : ℚ) / (p.2.invited_count : ℚ))).sum)
      / elig.length
  else 0

/-- Modelled from the spec's words, for comparison in C1: the mean of a
field over every matching row (rows with `invited_count = 0` included),
0 when there are no rows. -/
def specMeanAll (f : Meeting → ℚ) (rows : List (Nat × Meeting)) : ℚ :=
  if rows.length ≠ 0 then ((rows.map (fun p => f p.2)).sum) / rows.length
  else 0

/-- Sample current time used by concrete witnesses. -/
def sampleNow : DateTime := ⟨⟨2025, 6, 1⟩, ⟨12, 0, 0⟩⟩

/-- A complete form submission dated in the past relative to
`sampleNow`. -/
def pastForm : Form :=
  ⟨some "2020-01-01", some "10:00", some "60", some "demo",
    some "1", some "1", some "20", some "12"⟩

/-- A stored meeting row used by concrete witnesses. -/
def sampleRow : Meeting :=
  ⟨some ⟨2030, 1, 1⟩, some ⟨12, 0, 0⟩, 60, none, 1, 1, 20, 12⟩

/-- A one-row store used by concrete witnesses. -/
def oneRowStore : Store := ⟨[(1, sampleRow)], 2⟩

/-- A complete, future-dated form submitting `invited_count = -5`. -/
def negCountForm : Form :=
  ⟨some "2031-03-04", some "09:30", some "45", none,
    some "1", some "1", some "-5", some "3"⟩

/-- A form with the date field absent but every other field valid. -/
def noDateForm : Form :=
  ⟨none, some "10:00", some "60", none, some "1", some "1", some "20", some "12"⟩

/-- A meeting dated 2030-01-01 12:00 with the given invited and accepted
counts, for the report witnesses. -/
def rateRow (inv acc : Int) : Meeting :=
  ⟨some ⟨2030, 1, 1⟩, some ⟨12, 0, 0⟩, 60, none, 1, 1, inv, acc⟩

/-- The spec's worked example: invited counts [20, 0, 10] and accepted
counts [12, 5, 0]. -/
def rateStore : Store :=
  ⟨[(1, rateRow 20 12), (2, rateRow 0 5), (3, rateRow 10 0)], 4⟩

/-- A form whose date string does not match `YYYY-MM-DD` (month 13). -/
def badDateForm : Form :=
  ⟨some "2020-13-40", some "10:00", some "60", none,
    some "1", some "1", some "20", some "12"⟩

/-- A future-dated form whose invited_count is not numeric. -/
def badCountForm : Form :=
  ⟨some "2031-01-01", some "10:00", some "60", none,
    some "1", some "1", some "12a", some "12"⟩

/-! ## Theorems -/

/-- C3: for every date `d` and time `t` (each possibly absent), the
past-check returns true iff both are present and the combined datetime
is strictly earlier than the current local time; with either input
absent it returns false. -/
theorem reject_if_past_true_iff (now : DateTime) (d : Option Date) (t : Option Time) :
    reject_if_past now d t = true ↔
      ∃ dd tt, d = some dd ∧ t = some tt ∧ DateTime.ltb ⟨dd, tt⟩ now = true := by
  cases d <;> cases t <;> simp [reject_if_past]

/-- C2: a create or update whose parsed date and time combine to a
datetime strictly before `now` persists nothing (the store is returned
unchanged) and redirects back to the originating form (new-form for
create, edit-form for update) with a flashed notice. -/
theorem past_datetime_rejected_without_persisting
    (now : DateTime) (form : Form) (s : Store) (d : Date) (t : Time)
    (hd : parse_date form.date = .ok (some d))
    (ht : parse_time form.start_time = some t)
    (hpast : DateTime.ltb ⟨d, t⟩ now = true) :
    meetings_create now form s =
      .ok (s, .redirect "meetings_new" ["Cannot schedule a meeting in the past!"]) ∧
    ∀ i, (s.lookup i).isSome →
      meetings_update now i form s =
        .ok (s, .redirect "meetings_edit" ["Cannot schedule a meeting in the past!"]) := by
  constructor
  · simp [meetings_create, hd, ht, reject_if_past, hpast]
  · intro i hi
    obtain ⟨m, hm⟩ := Option.isSome_iff_exists.mp hi
    simp [meetings_update, hm, hd, ht, reject_if_past, hpast]

/-- Witness for C2 at a concrete past-dated submission. -/
theorem past_datetime_rejected_without_persisting_witness :
    meetings_create sampleNow pastForm oneRowStore =
      .ok (oneRowStore,
        .redirect "meetings_new" ["Cannot schedule a meeting in the past!"]) ∧
    meetings_update sampleNow 1 pastForm oneRowStore =
      .ok (oneRowStore,
        .redirect "meetings_edit" ["Cannot schedule a meeting in the past!"]) := by
  have h := past_datetime_rejected_without_persisting sampleNow pastForm oneRowStore
    ⟨2020, 1, 1⟩ ⟨10, 0, 0⟩ rfl rfl (by decide)
  exact ⟨h.1, h.2 1 (by decide)⟩

/-- Replacing a row that is present makes `find?` on its key return the
replacement. -/
theorem find_map_replace (l : List (Nat × Meeting)) (i : Nat) (m : Meeting)
    (h : (l.find? (fun p => p.1 == i)).isSome) :
    (l.map (fun p => if p.1 == i then (i, m) else p)).find?
      (fun p => p.1 == i) = some (i, m) := by
  induction l with
  | nil => simp at h
  | cons a l ih =>
    cases hbeq : (a.1 == i) with
    | true =>
      simp only [List.map_cons, if_pos hbeq]
      exact List.find?_cons_of_pos _ (by simp)
    | false =>
      have hcond : ¬ (((fun p : Nat × Meeting => p.1 == i) a) = true) := by
        simp [hbeq]
      rw [List.find?_cons_of_neg l hcond] at h
      simp only [List.map_cons, if_neg hcond]
      rw [List.find?_cons_of_neg
        (List.map (fun p => if p.1 == i then (i, m) else p) l) hcond]
      exact ih h

/-- `lookup` after an in-place row update returns the new row, provided
the key was present. -/
theorem Store.lookup_replaceRow (s : Store) (i : Nat) (m : Meeting)
    (h : (s.lookup i).isSome) :
    (s.replaceRow i m).lookup i = some m := by
  have h2 : (s.meetings.find? (fun p => p.1 == i)).isSome := by
    unfold Store.lookup at h
    cases hf : s.meetings.find? (fun p => p.1 == i) with
    | none => rw [hf] at h; simp at h
    | some _ => rfl
  show ((s.meetings.map (fun p => if p.1 == i then (i, m) else p)).find?
      (fun p => p.1 == i)).map (fun p => p.2) = some m
  rw [find_map_replace _ _ _ h2]
  rfl

/-- C4: on every successful create and update the persisted
`invited_count` and `accepted_count` equal `max 0` of the parsed
submitted value, and an absent or empty field parses to 0. -/
theorem persisted_counts_clamped
    (now : DateTime) (form : Form) (s : Store) (iv av : Int)
    (hi : intOr0 form.invited_count = .ok iv)
    (ha : intOr0 form.accepted_count = .ok av) :
    intOr0 none = .ok 0 ∧ intOr0 (some "") = .ok 0 ∧
    (∀ s' fl, meetings_create now form s = .ok (s', .redirect "meetings_list" fl) →
      ∃ m, s'.meetings = s.meetings ++ [(s.nextId, m)] ∧
        m.invited_count = max 0 iv ∧ m.accepted_count = max 0 av) ∧
    (∀ i s' fl, meetings_update now i form s = .ok (s', .redirect "meetings_list" fl) →
      ∃ m, s'.lookup i = some m ∧
        m.invited_count = max 0 iv ∧ m.accepted_count = max 0 av) := by
  refine ⟨rfl, rfl, ?_, ?_⟩
  · intro s' fl hok
    cases hpd : parse_date form.date with
    | error e => simp [meetings_create, hpd] at hok
    | ok d =>
      by_cases hrp : reject_if_past now d (parse_time form.start_time) = true
      · simp [meetings_create, hpd, hrp] at hok
      · cases hdu : intOr0 form.duration_minutes with
        | error e => simp [meetings_create, hpd, hrp, hi, ha, hdu] at hok
        | ok du =>
          cases hcl : intReq form.club_id with
          | error e => simp [meetings_create, hpd, hrp, hi, ha, hdu, hcl] at hok
          | ok cl =>
            cases hro : intReq form.room_id with
            | error e =>
              simp [meetings_create, hpd, hrp, hi, ha, hdu, hcl, hro] at hok
            | ok ro =>
              by_cases hnn :
                  (d.isSome && (parse_time form.start_time).isSome) = true
              · have hceq : meetings_create now form s =
                    .ok (⟨s.meetings ++ [(s.nextId,
                        ⟨d, parse_time form.start_time, du, form.description,
                          cl, ro, max 0 iv, max 0 av⟩)], s.nextId + 1⟩,
                      .redirect "meetings_list" ["Meeting created!"]) := by
                  simp [meetings_create, hpd, hrp, hi, ha, hdu, hcl, hro,
                    commitInsert, Meeting.notNullOk, hnn]
                rw [hceq] at hok
                simp only [Except.ok.injEq, Prod.mk.injEq,
                  Response.redirect.injEq] at hok
                refine ⟨⟨d, parse_time form.start_time, du, form.description,
                  cl, ro, max 0 iv, max 0 av⟩, ?_, rfl, rfl⟩
                rw [← hok.1]
              · simp [meetings_create, hpd, hrp, hi, ha, hdu, hcl, hro,
                  commitInsert, Meeting.notNullOk, hnn] at hok
  · intro i s' fl hok
    cases hlk : s.lookup i with
    | none => simp [meetings_update, hlk] at hok
    | some m0 =>
      cases hpd : parse_date form.date with
      | error e => simp [meetings_update, hlk, hpd] at hok
      | ok d =>
        by_cases hrp : reject_if_past now d (parse_time form.start_time) = true
        · simp [meetings_update, hlk, hpd, hrp] at hok
        · cases hdu : intOr0 form.duration_minutes with
          | error e => simp [meetings_update, hlk, hpd, hrp, hdu] at hok
          | ok du =>
            cases hcl : intReq form.club_id with
            | error e => simp [meetings_update, hlk, hpd, hrp, hdu, hcl] at hok
            | ok cl =>
              cases hro : intReq form.room_id with
              | error e =>
                simp [meetings_update, hlk, hpd, hrp, hdu, hcl, hro] at hok
              | ok ro =>
                by_cases hnn :
                    (d.isSome && (parse_time form.start_time).isSome) = true
                · have hceq : meetings_update now i form s =
                      .ok (s.replaceRow i
                          ⟨d, parse_time form.start_time, du, form.description,
                            cl, ro, max 0 iv, max 0 av⟩,
                        .redirect "meetings_list" ["Meeting updated!"]) := by
                    simp [meetings_update, hlk, hpd, hrp, hi, ha, hdu, hcl, hro,
                      commitReplace, Meeting.notNullOk, hnn]
                  rw [hceq] at hok
                  simp only [Except.ok.injEq, Prod.mk.injEq,
                    Response.redirect.injEq] at hok
                  refine ⟨⟨d, parse_time form.start_time, du, form.description,
                    cl, ro, max 0 iv, max 0 av⟩, ?_, rfl, rfl⟩
                  rw [← hok.1]
                  exact Store.lookup_replaceRow s i _ (by simp [hlk])
                · simp [meetings_update, hlk, hpd, hrp, hi, ha, hdu, hcl, hro,
                    commitReplace, Meeting.notNullOk, hnn] at hok

/-- Witness for C4: submitting `invited_count = -5` persists 0. -/
theorem persisted_counts_clamped_witness :
    ∃ m,
      (⟨[(1, ⟨some ⟨2031, 3, 4⟩, some ⟨9, 30, 0⟩, 45, none, 1, 1, 0, 3⟩)], 2⟩ :
          Store).meetings =
        (⟨[], 1⟩ : Store).meetings ++ [((⟨[], 1⟩ : Store).nextId, m)] ∧
      m.invited_count = max 0 (-5) ∧ m.accepted_count = max 0 3 := by
  have h := persisted_counts_clamped sampleNow negCountForm ⟨[], 1⟩ (-5) 3 rfl rfl
  exact h.2.2.1
    ⟨[(1, ⟨some ⟨2031, 3, 4⟩, some ⟨9, 30, 0⟩, 45, none, 1, 1, 0, 3⟩)], 2⟩
    ["Meeting created!"] rfl

/-- C10: a create or update with an empty/absent date or start_time is
never rejected by the handler's validation: the past-check returns
false, every field parse proceeds, and the request fails only at store
commit time with the schema's `NOT NULL` violation (an
`IntegrityError`), not with a handler-level redirect. -/
theorem absent_date_time_reaches_commit
    (now : DateTime) (form : Form) (s : Store) (d : Option Date)
    (hd : parse_date form.date = .ok d)
    (habs : d = none ∨ parse_time form.start_time = none)
    (hiv : ∃ n, intOr0 form.invited_count = .ok n)
    (hac : ∃ n, intOr0 form.accepted_count = .ok n)
    (hdu : ∃ n, intOr0 form.duration_minutes = .ok n)
    (hcl : ∃ n, intReq form.club_id = .ok n)
    (hro : ∃ n, intReq form.room_id = .ok n) :
    reject_if_past now d (parse_time form.start_time) = false ∧
    meetings_create now form s = .error .integrityError ∧
    ∀ i, (s.lookup i).isSome →
      meetings_update now i form s = .error .integrityError := by
  obtain ⟨iv, hiv⟩ := hiv
  obtain ⟨av, hac⟩ := hac
  obtain ⟨du, hdu⟩ := hdu
  obtain ⟨cl, hcl⟩ := hcl
  obtain ⟨ro, hro⟩ := hro
  have hrp : reject_if_past now d (parse_time form.start_time) = false := by
    rcases habs with h1 | h1
    · subst h1
      cases parse_time form.start_time <;> simp [reject_if_past]
    · rw [h1]
      cases d <;> simp [reject_if_past]
  have hnn : (d.isSome && (parse_time form.start_time).isSome) = false := by
    rcases habs with h1 | h1 <;> simp [h1]
  refine ⟨hrp, ?_, ?_⟩
  · simp [meetings_create, hd, hrp, hiv, hac, hdu, hcl, hro, commitInsert,
      Meeting.notNullOk, hnn]
  · intro i hi
    obtain ⟨m0, hm⟩ := Option.isSome_iff_exists.mp hi
    simp [meetings_update, hm, hd, hrp, hiv, hac, hdu, hcl, hro, commitReplace,
      Meeting.notNullOk, hnn]

/-- Witness for C10 at a concrete date-less submission. -/
theorem absent_date_time_reaches_commit_witness :
    meetings_create sampleNow noDateForm oneRowStore = .error .integrityError ∧
    meetings_update sampleNow 1 noDateForm oneRowStore = .error .integrityError := by
  have h := absent_date_time_reaches_commit sampleNow noDateForm oneRowStore none
    rfl (Or.inl rfl) ⟨20, rfl⟩ ⟨12, rfl⟩ ⟨60, rfl⟩ ⟨1, rfl⟩ ⟨1, rfl⟩
  exact ⟨h.2.1, h.2.2 1 (by decide)⟩

/-- The ascending row order is transitive. -/
theorem rowKeyLe_trans (a b c : Nat × Meeting) :
    rowKeyLe a b = true → rowKeyLe b c = true → rowKeyLe a c = true := by
  intro h1 h2
  cases hda : a.2.date <;> cases hdb : b.2.date <;> cases hdc : c.2.date <;>
    cases hta : a.2.start_time <;> cases htb : b.2.start_time <;>
    cases htc : c.2.start_time <;>
    simp_all [rowKeyLe, optDateLt, optDateEqb, optTimeLt, Date.ltb, Time.ltb,
      Date.eqb] <;>
    omega

/-- The ascending row order is total. -/
theorem rowKeyLe_total (a b : Nat × Meeting) :
    (rowKeyLe a b || rowKeyLe b a) = true := by
  cases hda : a.2.date <;> cases hdb : b.2.date <;>
    cases hta : a.2.start_time <;> cases htb : b.2.start_time <;>
    simp_all [rowKeyLe, optDateLt, optDateEqb, optTimeLt, Date.ltb, Time.ltb,
      Date.eqb] <;>
    omega

/-- Any successful report: its rows are `reportRows` over the parsed
filters and its stats are `reportStats` of those rows. -/
theorem report_ok_shape (args : ReportArgs) (s : Store) (r : ReportResult)
    (h : report args s = .ok r) :
    ∃ df dt, parse_date args.date_from = .ok df ∧
      parse_date args.date_to = .ok dt ∧
      r = ⟨reportRows (argsGetInt args.club_id) (argsGetInt args.room_id)
            df dt s.meetings,
          argsGetInt args.club_id, argsGetInt args.room_id,
          args.date_from, args.date_to,
          reportStats (reportRows (argsGetInt args.club_id)
            (argsGetInt args.room_id) df dt s.meetings)⟩ := by
  cases hdf : parse_date args.date_from with
  | error e => simp [report, hdf] at h
  | ok df =>
    cases hdt : parse_date args.date_to with
    | error e => simp [report, hdf, hdt] at h
    | ok dt =>
      refine ⟨df, dt, rfl, rfl, ?_⟩
      simp [report, hdf, hdt] at h
      exact h.symm

/-- Every row of a filtered report collection comes from the store. -/
theorem mem_reportRows_subset (cid rid : Option Int) (df dt : Option Date)
    (ms : List (Nat × Meeting)) (p : Nat × Meeting)
    (hp : p ∈ reportRows cid rid df dt ms) : p ∈ ms := by
  simp only [reportRows, List.mem_mergeSort] at hp
  split at hp <;> split at hp <;> split at hp <;> split at hp <;>
    (try simp only [List.mem_filter] at hp) <;> tauto

/-- With every stored `invited_count` non-negative (the system invariant
guaranteed by the handlers' clamping), the code's truthiness filter
`invited_count != 0` coincides with the spec's `invited_count > 0`, and
the attendance-rate aggregate is the spec's mean. -/
theorem reportStats_attendance_of_nonneg (rows : List (Nat × Meeting))
    (hnn : ∀ p ∈ rows, 0 ≤ p.2.invited_count) :
    (reportStats rows).avg_attendance_rate = pyRound (specAttendanceMean rows) 3 := by
  have hfe : rows.filter (fun p => decide (p.2.invited_count ≠ 0)) =
      rows.filter (fun p => decide (0 < p.2.invited_count)) :=
    List.filter_congr (fun x hx => by
      have := hnn x hx
      simp only [decide_eq_decide]
      omega)
  simp only [reportStats, specAttendanceMean, hfe, List.length_map]

/-- C1: for every store (with the non-negative-counts invariant) and
every report whose date parameters parse, the report succeeds and its
attendance-rate aggregate is the display-rounded mean of
`accepted_count/invited_count` over exactly the rows with
`invited_count > 0` (0 when there is no such row), as computed by
`specAttendanceMean`. -/
theorem report_attendance_rate_mean_over_positive_invited
    (args : ReportArgs) (s : Store) (df dt : Option Date)
    (hdf : parse_date args.date_from = .ok df)
    (hdt : parse_date args.date_to = .ok dt)
    (hnn : ∀ p ∈ s.meetings, 0 ≤ p.2.invited_count) :
    ∃ r, report args s = .ok r ∧
      r.stats.avg_attendance_rate = pyRound (specAttendanceMean r.rows) 3 ∧
      r.stats.avg_duration =
        pyRound (specMeanAll (fun m => (m.duration_minutes : ℚ)) r.rows) 2 ∧
      r.stats.avg_invited =
        pyRound (specMeanAll (fun m => (m.invited_count : ℚ)) r.rows) 2 ∧
      r.stats.avg_accepted =
        pyRound (specMeanAll (fun m => (m.accepted_count : ℚ)) r.rows) 2 := by
  refine ⟨⟨reportRows (argsGetInt args.club_id) (argsGetInt args.room_id)
      df dt s.meetings,
    argsGetInt args.club_id, argsGetInt args.room_id,
    args.date_from, args.date_to,
    reportStats (reportRows (argsGetInt args.club_id)
      (argsGetInt args.room_id) df dt s.meetings)⟩, ?_, ?_, ?_, ?_, ?_⟩
  · simp [report, hdf, hdt]
  · exact reportStats_attendance_of_nonneg _
      (fun p hp => hnn p (mem_reportRows_subset _ _ _ _ _ _ hp))
  · simp only [reportStats, specMeanAll]
  · simp only [reportStats, specMeanAll]
  · simp only [reportStats, specMeanAll]

/-- Witness for C1: the spec's worked example [20, 0, 10] / [12, 5, 0];
its spec-side mean is (12/20 + 0/10)/2 = 0.3, rounded to 0.300. -/
theorem report_attendance_rate_mean_over_positive_invited_witness :
    (∃ r, report ⟨none, none, none, none⟩ rateStore = .ok r ∧
      r.stats.avg_attendance_rate = pyRound (specAttendanceMean r.rows) 3 ∧
      r.stats.avg_duration =
        pyRound (specMeanAll (fun m => (m.duration_minutes : ℚ)) r.rows) 2 ∧
      r.stats.avg_invited =
        pyRound (specMeanAll (fun m => (m.invited_count : ℚ)) r.rows) 2 ∧
      r.stats.avg_accepted =
        pyRound (specMeanAll (fun m => (m.accepted_count : ℚ)) r.rows) 2) ∧
    pyRound (specAttendanceMean
      [(1, rateRow 20 12), (2, rateRow 0 5), (3, rateRow 10 0)]) 3 = 3 / 10 := by
  constructor
  · exact report_attendance_rate_mean_over_positive_invited
      ⟨none, none, none, none⟩ rateStore none none rfl rfl (by decide)
  · norm_num [specAttendanceMean, rateRow, pyRound]

/-- C6: the list view returns the stored meetings sorted newest-first by
(date, start_time) descending, and the report (whenever its date
parameters parse) returns its rows sorted oldest-first by
(date, start_time) ascending. -/
theorem list_desc_report_asc_sorted (s : Store) :
    (meetings_list s).Perm s.meetings ∧
    (meetings_list s).Pairwise (fun a b => rowKeyLe b a = true) ∧
    ∀ args df dt, parse_date args.date_from = .ok df →
      parse_date args.date_to = .ok dt →
      ∃ r, report args s = .ok r ∧
        r.rows.Pairwise (fun a b => rowKeyLe a b = true) := by
  refine ⟨List.mergeSort_perm _ _, ?_, ?_⟩
  · exact List.sorted_mergeSort
      (fun a b c hab hbc => rowKeyLe_trans c b a hbc hab)
      (fun a b => rowKeyLe_total b a)
      s.meetings
  · intro args df dt hdf hdt
    refine ⟨⟨reportRows (argsGetInt args.club_id) (argsGetInt args.room_id)
        df dt s.meetings,
      argsGetInt args.club_id, argsGetInt args.room_id,
      args.date_from, args.date_to,
      reportStats (reportRows (argsGetInt args.club_id)
        (argsGetInt args.room_id) df dt s.meetings)⟩, ?_, ?_⟩
    · simp [report, hdf, hdt]
    · exact List.sorted_mergeSort rowKeyLe_trans rowKeyLe_total _

/-- Witness for C6 at the concrete three-row store. -/
theorem list_desc_report_asc_sorted_witness :
    (meetings_list rateStore).Perm rateStore.meetings ∧
    ∃ r, report ⟨none, none, none, none⟩ rateStore = .ok r ∧
      r.rows.Pairwise (fun a b => rowKeyLe a b = true) := by
  have h := list_desc_report_asc_sorted rateStore
  exact ⟨h.1, h.2.2 ⟨none, none, none, none⟩ none none rfl rfl⟩

/-- Membership in a filtered report collection, characterised. -/
theorem mem_reportRows_iff (cid rid : Option Int) (df dt : Option Date)
    (ms : List (Nat × Meeting)) (p : Nat × Meeting) :
    p ∈ reportRows cid rid df dt ms ↔
      p ∈ ms ∧
      (truthyInt cid = true → (some p.2.club_id == cid) = true) ∧
      (truthyInt rid = true → (some p.2.room_id == rid) = true) ∧
      (∀ d, df = some d → dateGe p.2.date d = true) ∧
      (∀ d, dt = some d → dateLe p.2.date d = true) := by
  simp only [reportRows, List.mem_mergeSort]
  by_cases hc : truthyInt cid = true <;> by_cases hr : truthyInt rid = true <;>
    cases df <;> cases dt <;>
      simp [hc, hr, List.mem_filter] <;> tauto

/-- The aggregates of an empty collection are all zero. -/
theorem reportStats_nil : reportStats [] = ⟨0, 0, 0, 0⟩ := by
  norm_num [reportStats, pyRound]

/-- C5: with both date-range parameters present and well-formed, the
report succeeds, its rows are exactly the stored meetings whose date
lies in the inclusive range [date_from, date_to] and that pass any
club/room filter, and an empty matching set yields all four aggregates
equal to 0 (no division-by-zero failure). -/
theorem report_date_range_rows_and_empty_stats
    (args : ReportArgs) (s : Store) (df dt : Date)
    (hdf : parse_date args.date_from = .ok (some df))
    (hdt : parse_date args.date_to = .ok (some dt)) :
    ∃ r, report args s = .ok r ∧
      (∀ p, p ∈ r.rows ↔
        p ∈ s.meetings ∧
        (truthyInt (argsGetInt args.club_id) = true →
          (some p.2.club_id == argsGetInt args.club_id) = true) ∧
        (truthyInt (argsGetInt args.room_id) = true →
          (some p.2.room_id == argsGetInt args.room_id) = true) ∧
        dateGe p.2.date df = true ∧ dateLe p.2.date dt = true) ∧
      (r.rows = [] → r.stats = ⟨0, 0, 0, 0⟩) := by
  refine ⟨⟨reportRows (argsGetInt args.club_id) (argsGetInt args.room_id)
      (some df) (some dt) s.meetings,
    argsGetInt args.club_id, argsGetInt args.room_id,
    args.date_from, args.date_to,
    reportStats (reportRows (argsGetInt args.club_id)
      (argsGetInt args.room_id) (some df) (some dt) s.meetings)⟩, ?_, ?_, ?_⟩
  · simp [report, hdf, hdt]
  · intro p
    rw [mem_reportRows_iff]
    simp
  · intro hrows
    have hrows2 : reportRows (argsGetInt args.club_id)
        (argsGetInt args.room_id) (some df) (some dt) s.meetings = [] := hrows
    show reportStats (reportRows (argsGetInt args.club_id)
      (argsGetInt args.room_id) (some df) (some dt) s.meetings) = ⟨0, 0, 0, 0⟩
    rw [hrows2]
    exact reportStats_nil

/-- Witness for C5 at a concrete date range over the three-row store. -/
theorem report_date_range_rows_and_empty_stats_witness :
    ∃ r, report ⟨none, none, some "2029-12-01", some "2030-03-01"⟩ rateStore =
        .ok r ∧
      (∀ p, p ∈ r.rows ↔
        p ∈ rateStore.meetings ∧
        (truthyInt (argsGetInt (⟨none, none, some "2029-12-01",
            some "2030-03-01"⟩ : ReportArgs).club_id) = true →
          (some p.2.club_id == argsGetInt (⟨none, none, some "2029-12-01",
            some "2030-03-01"⟩ : ReportArgs).club_id) = true) ∧
        (truthyInt (argsGetInt (⟨none, none, some "2029-12-01",
            some "2030-03-01"⟩ : ReportArgs).room_id) = true →
          (some p.2.room_id == argsGetInt (⟨none, none, some "2029-12-01",
            some "2030-03-01"⟩ : ReportArgs).room_id) = true) ∧
        dateGe p.2.date ⟨2029, 12, 1⟩ = true ∧
        dateLe p.2.date ⟨2030, 3, 1⟩ = true) ∧
      (r.rows = [] → r.stats = ⟨0, 0, 0, 0⟩) :=
  report_date_range_rows_and_empty_stats
    ⟨none, none, some "2029-12-01", some "2030-03-01"⟩ rateStore
    ⟨2029, 12, 1⟩ ⟨2030, 3, 1⟩ rfl rfl

/-- C9: a report `club_id` or `room_id` parameter that parses to absent
(non-numeric input) or to 0 is treated exactly as if the filter were not
supplied: the resulting rows and stats coincide with the unfiltered
request's, because the handler tests the parsed value for truthiness. -/
theorem zero_or_nonnumeric_filter_ignored
    (a : ReportArgs) (s : Store) (v : Option String)
    (hv : argsGetInt v = none ∨ argsGetInt v = some 0) :
    (report { a with club_id := v } s).map (fun r => (r.rows, r.stats)) =
      (report { a with club_id := none } s).map (fun r => (r.rows, r.stats)) ∧
    (report { a with room_id := v } s).map (fun r => (r.rows, r.stats)) =
      (report { a with room_id := none } s).map (fun r => (r.rows, r.stats)) := by
  have hf : truthyInt (argsGetInt v) = false := by
    rcases hv with h | h <;> simp [h, truthyInt]
  constructor <;>
  · cases hdf : parse_date a.date_from with
    | error e => simp [report, hdf, Except.map]
    | ok df =>
      cases hdt : parse_date a.date_to with
      | error e => simp [report, hdf, hdt, Except.map]
      | ok dt =>
        simp [report, hdf, hdt, reportRows, hf, Except.map,
          show argsGetInt none = none from rfl,
          show truthyInt none = false from rfl]

/-- Witness for C9: `club_id=0` and a non-numeric `room_id=abc` on the
three-row store behave as absent filters. -/
theorem zero_or_nonnumeric_filter_ignored_witness :
    ((report { (⟨none, none, none, none⟩ : ReportArgs) with club_id := some "0" }
        rateStore).map (fun r => (r.rows, r.stats)) =
      (report { (⟨none, none, none, none⟩ : ReportArgs) with club_id := none }
        rateStore).map (fun r => (r.rows, r.stats))) ∧
    ((report { (⟨none, none, none, none⟩ : ReportArgs) with room_id := some "abc" }
        rateStore).map (fun r => (r.rows, r.stats)) =
      (report { (⟨none, none, none, none⟩ : ReportArgs) with room_id := none }
        rateStore).map (fun r => (r.rows, r.stats))) := by
  refine ⟨?_, ?_⟩
  · exact (zero_or_nonnumeric_filter_ignored ⟨none, none, none, none⟩ rateStore
      (some "0") (Or.inr rfl)).1
  · exact (zero_or_nonnumeric_filter_ignored ⟨none, none, none, none⟩ rateStore
      (some "abc") (Or.inl rfl)).2

/-- After deletion, looking the key up finds nothing. -/
theorem Store.lookup_removeRow (s : Store) (i : Nat) :
    (s.removeRow i).lookup i = none := by
  have hfind : ((s.meetings.filter (fun p => p.1 != i)).find?
      (fun p => p.1 == i)) = none := by
    rw [List.find?_eq_none]
    intro x hx
    have h2 := (List.mem_filter.mp hx).2
    simp at h2 ⊢
    exact h2
  show ((s.meetings.filter (fun p => p.1 != i)).find?
      (fun p => p.1 == i)).map (fun p => p.2) = none
  rw [hfind]
  rfl

/-- C8: deleting a present meeting removes it (the row disappears from
the store, the list view and every successful report), and any further
delete, update or edit on the same id yields the 404 outcome without
touching the store. -/
theorem delete_removes_then_not_found (s : Store) (i : Nat) (m : Meeting)
    (h : s.lookup i = some m) :
    meetings_delete i s =
      (s.removeRow i, .redirect "meetings_list" ["Meeting deleted!"]) ∧
    (s.removeRow i).lookup i = none ∧
    (∀ p ∈ meetings_list (s.removeRow i), p.1 ≠ i) ∧
    (∀ args r, report args (s.removeRow i) = .ok r → ∀ p ∈ r.rows, p.1 ≠ i) ∧
    meetings_delete i (s.removeRow i) = (s.removeRow i, .notFound) ∧
    (∀ now form, meetings_update now i form (s.removeRow i) =
      .ok (s.removeRow i, .notFound)) ∧
    meetings_edit i (s.removeRow i) = .notFound := by
  have hnone := Store.lookup_removeRow s i
  have hmem : ∀ p ∈ (s.removeRow i).meetings, p.1 ≠ i := by
    intro p hp
    simp only [Store.removeRow] at hp
    have h2 := (List.mem_filter.mp hp).2
    simpa using h2
  refine ⟨by simp [meetings_delete, h], hnone, ?_, ?_,
    by simp [meetings_delete, hnone],
    fun now form => by simp [meetings_update, hnone],
    by simp [meetings_edit, hnone]⟩
  · intro p hp
    exact hmem p (by simpa [meetings_list, List.mem_mergeSort] using hp)
  · intro args r hok p hp
    obtain ⟨df, dt, -, -, rfl⟩ := report_ok_shape args _ r hok
    exact hmem p (mem_reportRows_subset _ _ _ _ _ _ hp)

/-- Witness for C8 at the one-row store. -/
theorem delete_removes_then_not_found_witness :
    meetings_delete 1 oneRowStore =
      (oneRowStore.removeRow 1, .redirect "meetings_list" ["Meeting deleted!"]) ∧
    (oneRowStore.removeRow 1).lookup 1 = none ∧
    meetings_delete 1 (oneRowStore.removeRow 1) =
      (oneRowStore.removeRow 1, .notFound) ∧
    meetings_edit 1 (oneRowStore.removeRow 1) = .notFound := by
  have h := delete_removes_then_not_found oneRowStore 1 sampleRow rfl
  exact ⟨h.1, h.2.1, h.2.2.2.2.1, h.2.2.2.2.2.2⟩

/-- C7 counterexample: a report request carrying the non-numeric
`club_id` value "abc" does not raise a parse failure: Flask's
`type=int` conversion swallows the `ValueError`, the value parses to
absent, and the request succeeds. -/
theorem report_nonnumeric_club_id_no_error :
    report ⟨some "abc", none, none, none⟩ ⟨[], 1⟩ =
      .ok ⟨[], none, none, none, none, ⟨0, 0, 0, 0⟩⟩ := by
  have h1 : argsGetInt (some "abc") = none := rfl
  have hrows : reportRows none none none none ([] : List (Nat × Meeting)) = [] := by
    simp [reportRows, truthyInt]
  simp [report, parse_date, h1, hrows, reportStats_nil,
    show argsGetInt none = none from rfl]

/-- C7 (amended): non-numeric count and id fields on create/update, and
non-empty malformed date strings on create/update and in the report's
`date_from`/`date_to`, raise unhandled parse failures; the report's
`club_id` and `room_id`, by contrast, parse to absent and never raise.
Every field the create/update handlers parse with `int(...)` is
covered, each conjunct hypothesising only the parses the source
evaluates before the failing one (create: date, past-check, invited,
accepted, duration, club, room; update: lookup, date, past-check,
duration, club, room, invited, accepted). -/
theorem malformed_fields_cause_server_error :
    (∀ now form s str, form.date = some str → str ≠ "" →
      parseDateStr str = none →
      meetings_create now form s = .error .valueError) ∧
    (∀ now i form s str, (s.lookup i).isSome →
      form.date = some str → str ≠ "" → parseDateStr str = none →
      meetings_update now i form s = .error .valueError) ∧
    (∀ now form s d str, parse_date form.date = .ok d →
      reject_if_past now d (parse_time form.start_time) = false →
      form.invited_count = some str → str ≠ "" → pythonInt str = none →
      meetings_create now form s = .error .valueError) ∧
    (∀ now form s d iv str, parse_date form.date = .ok d →
      reject_if_past now d (parse_time form.start_time) = false →
      intOr0 form.invited_count = .ok iv →
      form.accepted_count = some str → str ≠ "" → pythonInt str = none →
      meetings_create now form s = .error .valueError) ∧
    (∀ now form s d iv av du str, parse_date form.date = .ok d →
      reject_if_past now d (parse_time form.start_time) = false →
      intOr0 form.invited_count = .ok iv →
      intOr0 form.accepted_count = .ok av →
      intOr0 form.duration_minutes = .ok du →
      form.club_id = some str → pythonInt str = none →
      meetings_create now form s = .error .valueError) ∧
    (∀ now form s d iv av du cl str, parse_date form.date = .ok d →
      reject_if_past now d (parse_time form.start_time) = false →
      intOr0 form.invited_count = .ok iv →
      intOr0 form.accepted_count = .ok av →
      intOr0 form.duration_minutes = .ok du →
      intReq form.club_id = .ok cl →
      form.room_id = some str → pythonInt str = none →
      meetings_create now form s = .error .valueError) ∧
    (∀ now i form s d du str, (s.lookup i).isSome →
      parse_date form.date = .ok d →
      reject_if_past now d (parse_time form.start_time) = false →
      intOr0 form.duration_minutes = .ok du →
      form.club_id = some str → pythonInt str = none →
      meetings_update now i form s = .error .valueError) ∧
    (∀ now i form s d du cl str, (s.lookup i).isSome →
      parse_date form.date = .ok d →
      reject_if_past now d (parse_time form.start_time) = false →
      intOr0 form.duration_minutes = .ok du →
      intReq form.club_id = .ok cl →
      form.room_id = some str → pythonInt str = none →
      meetings_update now i form s = .error .valueError) ∧
    (∀ now i form s d du cl ro str, (s.lookup i).isSome →
      parse_date form.date = .ok d →
      reject_if_past now d (parse_time form.start_time) = false →
      intOr0 form.duration_minutes = .ok du →
      intReq form.club_id = .ok cl → intReq form.room_id = .ok ro →
      form.invited_count = some str → str ≠ "" → pythonInt str = none →
      meetings_update now i form s = .error .valueError) ∧
    (∀ now i form s d du cl ro iv str, (s.lookup i).isSome →
      parse_date form.date = .ok d →
      reject_if_past now d (parse_time form.start_time) = false →
      intOr0 form.duration_minutes = .ok du →
      intReq form.club_id = .ok cl → intReq form.room_id = .ok ro →
      intOr0 form.invited_count = .ok iv →
      form.accepted_count = some str → str ≠ "" → pythonInt str = none →
      meetings_update now i form s = .error .valueError) ∧
    (∀ args s str, args.date_from = some str → str ≠ "" →
      parseDateStr str = none →
      report args s = .error .valueError) ∧
    (∀ args s df str, parse_date args.date_from = .ok df →
      args.date_to = some str → str ≠ "" → parseDateStr str = none →
      report args s = .error .valueError) ∧
    (∀ cid rid dfs dts s df dt, parse_date dfs = .ok df →
      parse_date dts = .ok dt →
      ∃ r, report ⟨cid, rid, dfs, dts⟩ s = .ok r) := by
  refine ⟨?_, ?_, ?_, ?_, ?_, ?_, ?_, ?_, ?_, ?_, ?_, ?_, ?_⟩
  · intro now form s str hd hne hps
    have hpd : parse_date form.date = .error .valueError := by
      rw [hd]; simp [parse_date, hne, hps]
    simp [meetings_create, hpd]
  · intro now i form s str hi hd hne hps
    obtain ⟨m0, hm⟩ := Option.isSome_iff_exists.mp hi
    have hpd : parse_date form.date = .error .valueError := by
      rw [hd]; simp [parse_date, hne, hps]
    simp [meetings_update, hm, hpd]
  · intro now form s d str hpd hrp hstr hne hps
    have hiv : intOr0 form.invited_count = .error .valueError := by
      rw [hstr]; simp [intOr0, hne, hps]
    simp [meetings_create, hpd, hrp, hiv]
  · intro now form s d iv str hpd hrp hiv hstr hne hps
    have hac : intOr0 form.accepted_count = .error .valueError := by
      rw [hstr]; simp [intOr0, hne, hps]
    simp [meetings_create, hpd, hrp, hiv, hac]
  · intro now form s d iv av du str hpd hrp hiv hac hdu hstr hps
    have hcl : intReq form.club_id = .error .valueError := by
      rw [hstr]; simp [intReq, hps]
    simp [meetings_create, hpd, hrp, hiv, hac, hdu, hcl]
  · intro now form s d iv av du cl str hpd hrp hiv hac hdu hcl hstr hps
    have hro : intReq form.room_id = .error .valueError := by
      rw [hstr]; simp [intReq, hps]
    simp [meetings_create, hpd, hrp, hiv, hac, hdu, hcl, hro]
  · intro now i form s d du str hi hpd hrp hdu hstr hps
    obtain ⟨m0, hm⟩ := Option.isSome_iff_exists.mp hi
    have hcl : intReq form.club_id = .error .valueError := by
      rw [hstr]; simp [intReq, hps]
    simp [meetings_update, hm, hpd, hrp, hdu, hcl]
  · intro now i form s d du cl str hi hpd hrp hdu hcl hstr hps
    obtain ⟨m0, hm⟩ := Option.isSome_iff_exists.mp hi
    have hro : intReq form.room_id = .error .valueError := by
      rw [hstr]; simp [intReq, hps]
    simp [meetings_update, hm, hpd, hrp, hdu, hcl, hro]
  · intro now i form s d du cl ro str hi hpd hrp hdu hcl hro hstr hne hps
    obtain ⟨m0, hm⟩ := Option.isSome_iff_exists.mp hi
    have hiv : intOr0 form.invited_count = .error .valueError := by
      rw [hstr]; simp [intOr0, hne, hps]
    simp [meetings_update, hm, hpd, hrp, hdu, hcl, hro, hiv]
  · intro now i form s d du cl ro iv str hi hpd hrp hdu hcl hro hiv hstr hne hps
    obtain ⟨m0, hm⟩ := Option.isSome_iff_exists.mp hi
    have hac : intOr0 form.accepted_count = .error .valueError := by
      rw [hstr]; simp [intOr0, hne, hps]
    simp [meetings_update, hm, hpd, hrp, hdu, hcl, hro, hiv, hac]
  · intro args s str hd hne hps
    have hpd : parse_date args.date_from = .error .valueError := by
      rw [hd]; simp [parse_date, hne, hps]
    simp [report, hpd]
  · intro args s df str hdf hd hne hps
    have hpd : parse_date args.date_to = .error .valueError := by
      rw [hd]; simp [parse_date, hne, hps]
    simp [report, hdf, hpd]
  · intro cid rid dfs dts s df dt hdf hdt
    exact ⟨⟨reportRows (argsGetInt cid) (argsGetInt rid) df dt s.meetings,
      argsGetInt cid, argsGetInt rid, dfs, dts,
      reportStats (reportRows (argsGetInt cid) (argsGetInt rid)
        df dt s.meetings)⟩, by simp [report, hdf, hdt]⟩

/-- Witness for the amended C7 at concrete malformed inputs: a malformed
date string on create and on update, a non-numeric invited_count on
create, and a malformed report date_from. -/
theorem malformed_fields_cause_server_error_witness :
    meetings_create sampleNow badDateForm oneRowStore = .error .valueError ∧
    meetings_update sampleNow 1 badDateForm oneRowStore = .error .valueError ∧
    meetings_create sampleNow badCountForm oneRowStore = .error .valueError ∧
    report ⟨none, none, some "202X", none⟩ oneRowStore = .error .valueError := by
  have h := malformed_fields_cause_server_error
  refine ⟨h.1 sampleNow badDateForm oneRowStore "2020-13-40" rfl (by decide) rfl,
    h.2.1 sampleNow 1 badDateForm oneRowStore "2020-13-40" (by decide) rfl
      (by decide) rfl,
    ?_,
    h.2.2.2.2.2.2.2.2.2.2.1 ⟨none, none, some "202X", none⟩ oneRowStore "202X"
      rfl (by decide) rfl⟩
  exact h.2.2.1 sampleNow badCountForm oneRowStore (some ⟨2031, 1, 1⟩) "12a"
    rfl rfl rfl (by decide) rfl

end ClubApp
